import Mathlib

/-!
Verification of the piclock clock synchronization and actuation engine.

The definitions below are shallow embeddings of the Python sources:
`piclock.py` (class `ClockController`, the final consolidated version),
`functions/clock.py` (class `Clock`, the earlier refactored variant) and
`app.py` (function `main`).  Machine integers are modelled as `Int`
(Python has arbitrary-precision integers); Python `%` and `//` on
nonnegative-divisor operands agree with Lean's `Int.emod` / `Int.ediv`.
Persisted FRAM records are modelled as `List Char` (the decoded bytes).
-/

namespace PiClock

/-- The 12-hour hand position held in `clock_hour` / `clock_minute` /
`clock_second` (piclock.py) resp. `hour_hand_position` etc. (clock.py). -/
structure HandPosition where
  hour : Int
  minute : Int
  second : Int
  deriving DecidableEq, Repr

/-- Validity of a hand position: hour 1-12, minute 0-59, second 0-59. -/
def HandPosition.Valid (p : HandPosition) : Prop :=
  1 ≤ p.hour ∧ p.hour ≤ 12 ∧ 0 ≤ p.minute ∧ p.minute ≤ 59 ∧ 0 ≤ p.second ∧ p.second ≤ 59

instance (p : HandPosition) : Decidable p.Valid := by
  unfold HandPosition.Valid; infer_instance

/-- `ClockController.update_clock_position` (piclock.py lines 335-352).
Advances the hand position by one second forward (`reverse = false`) or
one second backward (`reverse = true`); on an hour rollover the value `0`
is explicitly replaced by `12`. -/
def ClockController.update_clock_position (reverse : Bool) (p : HandPosition) : HandPosition :=
  if reverse then
    let second := (p.second - 1) % 60
    if second = 59 then
      let minute := (p.minute - 1) % 60
      if minute = 59 then
        let hour0 := (p.hour - 1) % 12
        let hour := if hour0 = 0 then 12 else hour0
        ⟨hour, minute, second⟩
      else
        ⟨p.hour, minute, second⟩
    else
      ⟨p.hour, p.minute, second⟩
  else
    let second := (p.second + 1) % 60
    if second = 0 then
      let minute := (p.minute + 1) % 60
      if minute = 0 then
        let hour0 := (p.hour + 1) % 12
        let hour := if hour0 = 0 then 12 else hour0
        ⟨hour, minute, second⟩
      else
        ⟨p.hour, minute, second⟩
    else
      ⟨p.hour, p.minute, second⟩

/-- `Clock.update_clock_position` (functions/clock.py lines 116-128).
Same rollover arithmetic but WITHOUT the explicit `0 -> 12` hour fix:
the hour is set to `(hour ± 1) % 12` directly. -/
def Clock.update_clock_position (reverse : Bool) (p : HandPosition) : HandPosition :=
  if reverse then
    let second := (p.second - 1) % 60
    if second = 59 then
      let minute := (p.minute - 1) % 60
      if minute = 59 then
        ⟨(p.hour - 1) % 12, minute, second⟩
      else
        ⟨p.hour, minute, second⟩
    else
      ⟨p.hour, p.minute, second⟩
  else
    let second := (p.second + 1) % 60
    if second = 0 then
      let minute := (p.minute + 1) % 60
      if minute = 0 then
        ⟨(p.hour + 1) % 12, minute, second⟩
      else
        ⟨p.hour, minute, second⟩
    else
      ⟨p.hour, p.minute, second⟩

/-- `ClockController.calculate_time_difference` (piclock.py lines 294-316):
signed offset in seconds of the authoritative (RTC/NTP) time against the
hand position, with AM/PM inference and half-day wraparound
normalization. -/
def ClockController.calculate_time_difference (p : HandPosition)
    (ntp_hour ntp_minute ntp_second : Int) : Int :=
  let ntp_total_seconds := ntp_hour * 3600 + ntp_minute * 60 + ntp_second
  let clock_hour_24 :=
    if p.hour = 12 then (if ntp_hour < 12 then 0 else 12)
    else if ntp_hour ≥ 12 then p.hour + 12
    else p.hour
  let clock_total_seconds := clock_hour_24 * 3600 + p.minute * 60 + p.second
  let total_seconds_diff := ntp_total_seconds - clock_total_seconds
  if total_seconds_diff > 21600 then total_seconds_diff - 43200
  else if total_seconds_diff < -21600 then total_seconds_diff + 43200
  else total_seconds_diff

/-- `Clock.calculate_time_difference` (functions/clock.py lines 92-114),
the earlier variant: computes `clock_hour_24` first, then the totals. -/
def Clock.calculate_time_difference (p : HandPosition)
    (hour minute second : Int) : Int :=
  let clock_hour_24 :=
    if p.hour = 12 then (if hour < 12 then (0 : Int) else 12)
    else if hour ≥ 12 then p.hour + 12 else p.hour
  let ntp_total_seconds := hour * 3600 + minute * 60 + second
  let clock_total_seconds := clock_hour_24 * 3600 + p.minute * 60 + p.second
  let total_seconds_diff := ntp_total_seconds - clock_total_seconds
  if total_seconds_diff > 21600 then total_seconds_diff - 43200
  else if total_seconds_diff < -21600 then total_seconds_diff + 43200
  else total_seconds_diff

/-- Reference offset algorithm following the wording of the spec (§4.3):
convert the 12-hour hand position to a 24-hour value by inferring AM/PM
from the authoritative hour (hand hour 12 maps to 0 when the
authoritative hour < 12, else to 12; otherwise 12 is added when the
authoritative hour ≥ 12), subtract hand total seconds from authoritative
total seconds, then normalize by subtracting 43200 when > 21600 and
adding 43200 when < -21600. -/
def specReferenceOffset (hand : HandPosition) (auth_h auth_m auth_s : Int) : Int :=
  let hand_hour_24 :=
    if hand.hour = 12 then (if auth_h < 12 then (0 : Int) else 12)
    else (if auth_h ≥ 12 then hand.hour + 12 else hand.hour)
  let auth_total := auth_h * 3600 + auth_m * 60 + auth_s
  let hand_total := hand_hour_24 * 3600 + hand.minute * 60 + hand.second
  let offset := auth_total - hand_total
  if offset > 21600 then offset - 43200
  else if offset < -21600 then offset + 43200
  else offset

/-- The three synchronization thresholds of `ClockController.__init__`
(`diff_threshold_hh` / `_mm` / `_ss`, piclock.py lines 64-67). -/
structure SyncThresholds where
  diff_threshold_hh : Int
  diff_threshold_mm : Int
  diff_threshold_ss : Int
  deriving DecidableEq, Repr

/-- Default thresholds: 6 hours / 0 minutes / 30 seconds. -/
def defaultThresholds : SyncThresholds := ⟨6, 0, 30⟩

/-- `ClockController.should_use_fast_forward_or_reverse` (piclock.py
lines 318-333): decompose the absolute offset into hours / minutes /
seconds and trigger a correction when any component strictly exceeds its
threshold. -/
def ClockController.should_use_fast_forward_or_reverse (th : SyncThresholds)
    (total_seconds_diff : Int) : Bool :=
  let abs_diff := |total_seconds_diff|
  let diff_hours := abs_diff / 3600
  let diff_minutes := (abs_diff % 3600) / 60
  let diff_seconds := abs_diff % 60
  decide (diff_hours > th.diff_threshold_hh) ||
    decide (diff_minutes > th.diff_threshold_mm) ||
    decide (diff_seconds > th.diff_threshold_ss)

/-- Outcome of one attempted GPIO pulse: either the hardware call works or
it raises (in the Python code any exception is caught and logged inside
`send_pwm_pulse`). -/
inductive PulseOutcome where
  | ok
  | hardwareFailure
  deriving DecidableEq, Repr

/-- Classification of one synchronization decision (spec §4.3): tick
forward at normal speed (`Hold`), tick faster (`FastForward`), or tick
backward (`Reverse`). -/
inductive SyncMode where
  | Hold
  | FastForward
  | Reverse
  deriving DecidableEq, Repr

/-- One externally observable actuation event of a tick: a coil pulse on a
GPIO pin (durations kept in the source's millisecond / duty-cycle units)
or an inter-pulse delay. -/
inductive PulseAction where
  | pulse (pin total_duration_ms on_us : Int)
  | sleep (delay_ms : Int)
  deriving DecidableEq, Repr

/-- The pulse-timing configuration fields of `ClockController.__init__`
(piclock.py lines 24-62) that the tick methods read. -/
structure PulseConfig where
  tick_pin1 : Int
  tick_pin2 : Int
  norm_tick_ms : Int
  norm_tick_on_us : Int
  fwd_tick_ms : Int
  fwd_tick_on_us : Int
  fwd_speedup : Int
  rev_ticka_lo : Int
  rev_ticka_hi : Int
  rev_ticka_t1_ms : Int
  rev_ticka_t2_ms : Int
  rev_ticka_t3_ms : Int
  rev_ticka_on_us : Int
  rev_tickb_t1_ms : Int
  rev_tickb_t2_ms : Int
  rev_tickb_t3_ms : Int
  rev_tickb_on_us : Int
  rev_speedup : Int
  deriving DecidableEq, Repr

/-- The default values assigned in `ClockController.__init__`. -/
def defaultPulseConfig : PulseConfig :=
  { tick_pin1 := 12, tick_pin2 := 13
    norm_tick_ms := 31, norm_tick_on_us := 60
    fwd_tick_ms := 32, fwd_tick_on_us := 60, fwd_speedup := 4
    rev_ticka_lo := 35, rev_ticka_hi := 55
    rev_ticka_t1_ms := 10, rev_ticka_t2_ms := 7, rev_ticka_t3_ms := 28, rev_ticka_on_us := 90
    rev_tickb_t1_ms := 10, rev_tickb_t2_ms := 7, rev_tickb_t3_ms := 28, rev_tickb_on_us := 82
    rev_speedup := 2 }

/-- The mutable `ClockController` fields touched by the tick / timer /
main-loop code paths modelled here. -/
structure ClockState where
  pos : HandPosition
  current_tick_pin : Int
  fast_forward : Bool
  reverse : Bool
  paused : Bool
  tick_event : Bool
  current_speed : Int
  hardware_available : Bool
  deriving DecidableEq, Repr

/-- `ClockController.send_pwm_pulse` (piclock.py lines 217-229).  When the
hardware is unavailable it logs and returns; when the GPIO call raises,
the exception is caught and logged.  In every case no controller field is
mutated, so on the logical state it is the identity, whatever the pulse
outcome. -/
def ClockController.send_pwm_pulse (s : ClockState)
    (_pin _total_duration_ms _on_us : Int) (_outcome : PulseOutcome) : ClockState :=
  s

/-- The pin switch of `forward_tick` / `fast_forward_tick` (piclock.py
lines 241, 254): `tick_pin2 if current == tick_pin1 else tick_pin1`. -/
def togglePinFwd (cfg : PulseConfig) (pin : Int) : Int :=
  if pin = cfg.tick_pin1 then cfg.tick_pin2 else cfg.tick_pin1

/-- The pin switch of `reverse_tick` (piclock.py line 284):
`tick_pin1 if current == tick_pin2 else tick_pin2`. -/
def togglePinRev (cfg : PulseConfig) (pin : Int) : Int :=
  if pin = cfg.tick_pin2 then cfg.tick_pin1 else cfg.tick_pin2

/-- `ClockController.forward_tick` (piclock.py lines 231-242): one normal
forward tick.  Returns the new state and the emitted actuation trace. -/
def ClockController.forward_tick (cfg : PulseConfig) (o : PulseOutcome)
    (s : ClockState) : ClockState × List PulseAction :=
  let s1 := { s with reverse := false, current_speed := 1 }
  let act := PulseAction.pulse s1.current_tick_pin cfg.norm_tick_ms cfg.norm_tick_on_us
  let s2 := ClockController.send_pwm_pulse s1 s1.current_tick_pin cfg.norm_tick_ms cfg.norm_tick_on_us o
  let s3 := { s2 with current_tick_pin := togglePinFwd cfg s2.current_tick_pin }
  ({ s3 with pos := ClockController.update_clock_position false s3.pos }, [act])

/-- `ClockController.fast_forward_tick` (piclock.py lines 244-255). -/
def ClockController.fast_forward_tick (cfg : PulseConfig) (o : PulseOutcome)
    (s : ClockState) : ClockState × List PulseAction :=
  let s1 := { s with reverse := false, current_speed := cfg.fwd_speedup }
  let act := PulseAction.pulse s1.current_tick_pin cfg.fwd_tick_ms cfg.fwd_tick_on_us
  let s2 := ClockController.send_pwm_pulse s1 s1.current_tick_pin cfg.fwd_tick_ms cfg.fwd_tick_on_us o
  let s3 := { s2 with current_tick_pin := togglePinFwd cfg s2.current_tick_pin }
  ({ s3 with pos := ClockController.update_clock_position false s3.pos }, [act])

/-- `ClockController.reverse_tick` (piclock.py lines 257-292): reads the
second hand BEFORE any mutation, selects the region-A parameters when
`rev_ticka_lo <= second < rev_ticka_hi` (else region B), emits the short
release pulse on the current output, switches outputs, waits the
inter-pulse delay, emits the long engage pulse on the other output, and
advances the position by one reverse-second. -/
def ClockController.reverse_tick (cfg : PulseConfig) (o1 o2 : PulseOutcome)
    (s : ClockState) : ClockState × List PulseAction :=
  let s1 := { s with reverse := true, current_speed := cfg.rev_speedup }
  let current_second := s1.pos.second
  let params :=
    if cfg.rev_ticka_lo ≤ current_second ∧ current_second < cfg.rev_ticka_hi then
      (cfg.rev_ticka_t1_ms, cfg.rev_ticka_t2_ms, cfg.rev_ticka_t3_ms, cfg.rev_ticka_on_us)
    else
      (cfg.rev_tickb_t1_ms, cfg.rev_tickb_t2_ms, cfg.rev_tickb_t3_ms, cfg.rev_tickb_on_us)
  let t1 := params.1
  let t2 := params.2.1
  let t3 := params.2.2.1
  let on_us := params.2.2.2
  let a1 := PulseAction.pulse s1.current_tick_pin t1 on_us
  let s2 := ClockController.send_pwm_pulse s1 s1.current_tick_pin t1 on_us o1
  let s3 := { s2 with current_tick_pin := togglePinRev cfg s2.current_tick_pin }
  let a2 := PulseAction.sleep t2
  let a3 := PulseAction.pulse s3.current_tick_pin t3 on_us
  let s4 := ClockController.send_pwm_pulse s3 s3.current_tick_pin t3 on_us o2
  ({ s4 with pos := ClockController.update_clock_position true s4.pos }, [a1, a2, a3])

/-- `ClockController.synchronize_clock` (piclock.py lines 354-380), after
a successful RTC read: compute the offset, then either tick forward at
normal speed (within tolerance), fast-forward (behind), or reverse
(ahead).  Returns the new state and the branch taken. -/
def ClockController.synchronize_clock (cfg : PulseConfig) (th : SyncThresholds)
    (o1 o2 : PulseOutcome) (rtc_h rtc_m rtc_s : Int) (s : ClockState) :
    ClockState × SyncMode :=
  let total_seconds_diff := ClockController.calculate_time_difference s.pos rtc_h rtc_m rtc_s
  if ClockController.should_use_fast_forward_or_reverse th total_seconds_diff = false then
    ((ClockController.forward_tick cfg o1 { s with fast_forward := false }).1, SyncMode.Hold)
  else if total_seconds_diff > 0 then
    ((ClockController.fast_forward_tick cfg o1 { s with fast_forward := true }).1, SyncMode.FastForward)
  else
    ((ClockController.reverse_tick cfg o1 o2 { s with fast_forward := false }).1, SyncMode.Reverse)

/-- The decision structure of `synchronize_clock` in isolation (its
if/elif/else on the computed offset). -/
def ClockController.sync_decision (th : SyncThresholds) (diff : Int) : SyncMode :=
  if ClockController.should_use_fast_forward_or_reverse th diff = false then SyncMode.Hold
  else if diff > 0 then SyncMode.FastForward
  else SyncMode.Reverse

/-- One firing of the cadence loop body of `ClockController.timer_callback`
(piclock.py lines 412-414): under the lock, the tick event is set only
when not paused. -/
def ClockController.timer_callback_iter (s : ClockState) : ClockState :=
  if s.paused = false then { s with tick_event := true } else s

/-- One iteration of the main loop of `ClockController.run` (piclock.py
lines 782-792): after the (timeout-bounded) wait, the tick event is
cleared and, only when not paused, the clock is synchronized and the
position persisted (`write_time_to_fram` mutates no controller field). -/
def ClockController.main_loop_iter (cfg : PulseConfig) (th : SyncThresholds)
    (rtc_h rtc_m rtc_s : Int) (o1 o2 : PulseOutcome) (s : ClockState) : ClockState :=
  let s1 := { s with tick_event := false }
  if s1.paused = false then
    (ClockController.synchronize_clock cfg th o1 o2 rtc_h rtc_m rtc_s s1).1
  else s1

/-- The `/api/pause_clock` handler (piclock.py lines 635-638). -/
def ClockController.pause (s : ClockState) : ClockState := { s with paused := true }

/-- The `/api/resume_clock` handler (piclock.py lines 640-643). -/
def ClockController.resume (s : ClockState) : ClockState := { s with paused := false }

/-- One scheduler step interleaving the two loops of piclock.py: either
the cadence loop fires, or the main loop runs one iteration against some
RTC reading and pulse outcomes. -/
inductive LoopStep where
  | timerFire
  | mainIter (rtc_h rtc_m rtc_s : Int) (o1 o2 : PulseOutcome)
  deriving DecidableEq, Repr

/-- Apply one scheduler step. -/
def applyLoopStep (cfg : PulseConfig) (th : SyncThresholds)
    (step : LoopStep) (s : ClockState) : ClockState :=
  match step with
  | LoopStep.timerFire => ClockController.timer_callback_iter s
  | LoopStep.mainIter rh rm rs o1 o2 =>
      ClockController.main_loop_iter cfg th rh rm rs o1 o2 s

/-- Run a finite sequence of interleaved loop steps. -/
def runLoopSteps (cfg : PulseConfig) (th : SyncThresholds)
    (steps : List LoopStep) (s : ClockState) : ClockState :=
  steps.foldl (fun st step => applyLoopStep cfg th step st) s

/-- A finite sequence of forward / reverse advances applied through
`ClockController.update_clock_position` (`true` = reverse). -/
def iterateAdvances (dirs : List Bool) (p : HandPosition) : HandPosition :=
  dirs.foldl (fun q r => ClockController.update_clock_position r q) p

/-- Seconds on the 12-hour dial represented by a hand position (hour 12
displayed as 0), used to state that one tick moves the position by
exactly one second. -/
def posToSeconds (p : HandPosition) : Int :=
  (p.hour % 12) * 3600 + p.minute * 60 + p.second

/-- ASCII decimal digit test. -/
def isDigitChar (c : Char) : Bool := decide ('0' ≤ c) && decide (c ≤ '9')

/-- Numeric value of an ASCII digit. -/
def digitVal (c : Char) : Int := (c.toNat : Int) - 48

/-- ASCII digit character of a value in 0-9 (what Python's `:02` zero-pad
formatting emits). -/
def digitChar (d : Int) : Char := Char.ofNat (48 + d.toNat)

/-- Characters stripped by Python's `int()` before parsing (the ASCII
whitespace set). -/
def isPySpace (c : Char) : Bool :=
  c = ' ' || c = '\t' || c = '\n' || c = '\r' || c = '\x0b' || c = '\x0c'

/-- Digit-string value used by `pyInt`: nonempty all-digit strings parse
to their decimal value. -/
def pyDigitsVal (ds : List Char) : Option Int :=
  if ds ≠ [] ∧ ds.all isDigitChar then
    some (ds.foldl (fun a c => 10 * a + digitVal c) 0)
  else none

/-- Python's `int(str)` on an ASCII string: strip whitespace on both
sides, allow one leading `+` or `-`, then require a nonempty digit run.
(Underscore digit grouping is not modelled; it cannot occur in the
two-character fields of an 8-byte record.)  A `none` result corresponds
to `int()` raising `ValueError`. -/
def pyInt (cs : List Char) : Option Int :=
  let t1 := cs.dropWhile fun c => isPySpace c
  let t := ((t1.reverse.dropWhile fun c => isPySpace c)).reverse
  match t with
  | [] => none
  | c :: rest =>
    if c = '+' then pyDigitsVal rest
    else if c = '-' then (pyDigitsVal rest).map (fun v => -v)
    else pyDigitsVal t

/-- Python's `str.split(":")` on a character list: always returns at
least one (possibly empty) part. -/
def splitOnColon : List Char → List (List Char)
  | [] => [[]]
  | c :: rest =>
    let r := splitOnColon rest
    if c = ':' then [] :: r
    else
      match r with
      | h :: t => (c :: h) :: t
      | [] => [[c]]

/-- `hour, minute, second = map(int, time_string.split(":"))` as used by
piclock.py line 165 / 756 and app.py line 131: exactly three parts, each
parsed by `int()`; anything else raises (modelled as `none`). -/
def pySplitParse (cs : List Char) : Option (Int × Int × Int) :=
  match splitOnColon cs with
  | [f1, f2, f3] =>
    match pyInt f1, pyInt f2, pyInt f3 with
    | some a, some b, some c => some (a, b, c)
    | _, _, _ => none
  | _ => none

/-- `ClockController.write_time_to_fram` (piclock.py lines 141-151): the
8 bytes `f"{hour:02}:{minute:02}:{second:02}"` written at FRAM offset 0
(for field values in 0-99 the zero-padded form is exactly two digits). -/
def ClockController.write_time_to_fram (hour minute second : Int) : List Char :=
  [digitChar (hour / 10), digitChar (hour % 10), ':',
   digitChar (minute / 10), digitChar (minute % 10), ':',
   digitChar (second / 10), digitChar (second % 10)]

/-- `ClockController.read_time_from_fram` (piclock.py lines 153-174) on
the decoded 8-byte record: require length 8 and `:` at offsets 2 and 5,
parse the three fields with `int()`, then require hour 1-12, minute and
second 0-59; any failure returns `none` (record treated as absent). -/
def ClockController.read_time_from_fram (cs : List Char) : Option (Int × Int × Int) :=
  if cs.length = 8 ∧ cs[2]? = some ':' ∧ cs[5]? = some ':' then
    match pySplitParse cs with
    | some (h, m, s) =>
      if 1 ≤ h ∧ h ≤ 12 ∧ 0 ≤ m ∧ m ≤ 59 ∧ 0 ≤ s ∧ s ≤ 59 then some (h, m, s)
      else none
    | none => none
  else none

/-- The exact persisted-record shape stated by the spec (§6): an 8-byte
record `HH:MM:SS` with DIGIT characters zero-padded, colons at offsets 2
and 5, hour 1-12, minute and second 0-59. -/
def specExactShape (cs : List Char) : Bool :=
  match cs with
  | [a, b, c, d, e, f, g, h] =>
    isDigitChar a && isDigitChar b && decide (c = ':') &&
    isDigitChar d && isDigitChar e && decide (f = ':') &&
    isDigitChar g && isDigitChar h &&
    (let hour := 10 * digitVal a + digitVal b
     let minute := 10 * digitVal d + digitVal e
     let second := 10 * digitVal g + digitVal h
     decide (1 ≤ hour ∧ hour ≤ 12 ∧ 0 ≤ minute ∧ minute ≤ 59 ∧ 0 ≤ second ∧ second ≤ 59))
  | _ => false

/-- Python's `hour % 12 or 12` (piclock.py line 758, app.py line 132). -/
def hourMod12Or12 (h : Int) : Int := if h % 12 = 0 then 12 else h % 12

/-- The startup seeding of `ClockController.run` (piclock.py lines
751-761): the FRAM record (`none` when unreadable) is validated by
`read_time_from_fram`; on success the position is set, otherwise the
clock position fields REMAIN UNSET (`None` from `__init__`) — there is no
default position in piclock.py. -/
def ClockController.run_initial_position (record : Option (List Char)) :
    Option HandPosition :=
  match record with
  | none => none
  | some cs =>
    match ClockController.read_time_from_fram cs with
    | some (h, m, s) => some ⟨hourMod12Or12 h, m, s⟩
    | none => none

/-- The startup seeding of `app.py main` (lines 128-135) through
`FRAM.read_time_from_fram` (functions/fram.py, which does NO validation):
an absent record (`none`) falls back to the default position 12:00:00;
a present record is split and parsed by `int()` with no range check —
a parse failure raises `ValueError` out of `main` (modelled as `none`,
i.e. a crash, since line 131 is outside any try block). -/
def appMainInitialPosition (record : Option (List Char)) : Option HandPosition :=
  match record with
  | none => some ⟨12, 0, 0⟩
  | some cs =>
    match pySplitParse cs with
    | some (h, m, s) => some ⟨hourMod12Or12 h, m, s⟩
    | none => none

/-! ## Helper lemmas -/

/-- Definitional unfolding of the forward advance on an explicit
position. -/
theorem update_false_mk (h m s : Int) :
    ClockController.update_clock_position false ⟨h, m, s⟩ =
      if (s + 1) % 60 = 0 then
        (if (m + 1) % 60 = 0 then
          ⟨(if (h + 1) % 12 = 0 then 12 else (h + 1) % 12), (m + 1) % 60, (s + 1) % 60⟩
        else ⟨h, (m + 1) % 60, (s + 1) % 60⟩)
      else ⟨h, m, (s + 1) % 60⟩ := rfl

/-- Definitional unfolding of the reverse advance on an explicit
position. -/
theorem update_true_mk (h m s : Int) :
    ClockController.update_clock_position true ⟨h, m, s⟩ =
      if (s - 1) % 60 = 59 then
        (if (m - 1) % 60 = 59 then
          ⟨(if (h - 1) % 12 = 0 then 12 else (h - 1) % 12), (m - 1) % 60, (s - 1) % 60⟩
        else ⟨h, (m - 1) % 60, (s - 1) % 60⟩)
      else ⟨h, m, (s - 1) % 60⟩ := rfl

/-- One advance of `ClockController.update_clock_position` preserves
validity of the hand position. -/
theorem valid_update_clock_position (r : Bool) (p : HandPosition) (hp : p.Valid) :
    (ClockController.update_clock_position r p).Valid := by
  obtain ⟨h, m, s⟩ := p
  obtain ⟨h1, h2, h3, h4, h5, h6⟩ := hp
  simp only [ClockController.update_clock_position, HandPosition.Valid] at *
  cases r <;> split_ifs <;> simp_all <;> omega

/-- Validity is preserved by every finite sequence of advances. -/
theorem valid_iterateAdvances (dirs : List Bool) (p : HandPosition) (hp : p.Valid) :
    (iterateAdvances dirs p).Valid := by
  induction dirs generalizing p with
  | nil => exact hp
  | cons r rest ih =>
      exact ih (ClockController.update_clock_position r p) (valid_update_clock_position r p hp)

/-- While paused, one scheduler step (cadence firing or main-loop
iteration) never changes the hand position and never clears the paused
flag. -/
theorem applyLoopStep_paused (cfg : PulseConfig) (th : SyncThresholds)
    (step : LoopStep) (s : ClockState) (hp : s.paused = true) :
    (applyLoopStep cfg th step s).pos = s.pos ∧
      (applyLoopStep cfg th step s).paused = true := by
  cases step with
  | timerFire =>
      simp [applyLoopStep, ClockController.timer_callback_iter, hp]
  | mainIter rh rm rs o1 o2 =>
      simp [applyLoopStep, ClockController.main_loop_iter, hp]

/-- While paused, any finite interleaving of cadence firings and
main-loop iterations leaves the hand position unchanged and the engine
paused. -/
theorem runLoopSteps_paused (cfg : PulseConfig) (th : SyncThresholds)
    (steps : List LoopStep) : ∀ s : ClockState, s.paused = true →
    (runLoopSteps cfg th steps s).pos = s.pos ∧
      (runLoopSteps cfg th steps s).paused = true := by
  induction steps with
  | nil => exact fun s hp => ⟨rfl, hp⟩
  | cons step rest ih =>
      intro s hp
      have h1 := applyLoopStep_paused cfg th step s hp
      have h2 := ih (applyLoopStep cfg th step s) h1.2
      exact ⟨h2.1.trans h1.1, h2.2⟩

/-! ## Claim theorems -/

/-- Claim C1: the offset computation of both implementations
(`ClockController.calculate_time_difference` in piclock.py and
`Clock.calculate_time_difference` in functions/clock.py) agrees with the
spec's reference algorithm on all inputs; in particular hand 12:00:00
against authoritative 00:00:01 yields offset +1, and hand 12:00:00
against authoritative 11:59:59 yields offset -1, not -43199. -/
theorem offset_matches_spec_reference :
    (∀ (hand : HandPosition) (ah am asec : Int),
        ClockController.calculate_time_difference hand ah am asec =
          specReferenceOffset hand ah am asec)
    ∧ (∀ (hand : HandPosition) (ah am asec : Int),
        Clock.calculate_time_difference hand ah am asec =
          specReferenceOffset hand ah am asec)
    ∧ ClockController.calculate_time_difference ⟨12, 0, 0⟩ 0 0 1 = 1
    ∧ ClockController.calculate_time_difference ⟨12, 0, 0⟩ 11 59 59 = -1
    ∧ ClockController.calculate_time_difference ⟨12, 0, 0⟩ 11 59 59 ≠ -43199 := by
  refine ⟨fun hand ah am asec => rfl, fun hand ah am asec => rfl, by decide, by decide, by decide⟩

/-- Claim C5: for every valid hand position and every authoritative time
with hour 0-23, minute 0-59, second 0-59, the normalized offset returned
by `calculate_time_difference` lies in [-21600, 21600]. -/
theorem offset_within_symmetric_window (p : HandPosition) (hp : p.Valid)
    (ah am asec : Int) (hah1 : 0 ≤ ah) (hah2 : ah ≤ 23)
    (ham1 : 0 ≤ am) (ham2 : am ≤ 59) (has1 : 0 ≤ asec) (has2 : asec ≤ 59) :
    -21600 ≤ ClockController.calculate_time_difference p ah am asec ∧
      ClockController.calculate_time_difference p ah am asec ≤ 21600 := by
  obtain ⟨h, m, s⟩ := p
  obtain ⟨h1, h2, h3, h4, h5, h6⟩ := hp
  simp only [ClockController.calculate_time_difference] at *
  split_ifs <;> simp_all <;> omega

/-- Witness for C5 at hand 12:00:00, authoritative 00:00:01. -/
theorem offset_within_symmetric_window_witness :
    (HandPosition.mk 12 0 0).Valid ∧
      (-21600 ≤ ClockController.calculate_time_difference ⟨12, 0, 0⟩ 0 0 1 ∧
        ClockController.calculate_time_difference ⟨12, 0, 0⟩ 0 0 1 ≤ 21600) :=
  ⟨by decide, offset_within_symmetric_window ⟨12, 0, 0⟩ (by decide) 0 0 1
    (by decide) (by decide) (by decide) (by decide) (by decide) (by decide)⟩

/-- Claim C3 (code bug in functions/clock.py): for the piclock.py
implementation the hour stays in [1,12] after every finite sequence of
forward / reverse advances from any valid start; but the
functions/clock.py variant violates the claimed invariant: one forward
advance from 11:59:59 produces hour 0. -/
theorem hour_never_zero_after_advances (p : HandPosition) (hp : p.Valid)
    (dirs : List Bool) :
    (1 ≤ (iterateAdvances dirs p).hour ∧ (iterateAdvances dirs p).hour ≤ 12)
    ∧ Clock.update_clock_position false ⟨11, 59, 59⟩ = ⟨0, 0, 0⟩ := by
  have hv := valid_iterateAdvances dirs p hp
  exact ⟨⟨hv.1, hv.2.1⟩, by decide⟩

/-- Witness for C3: three advances (forward, forward, reverse) from
11:59:59. -/
theorem hour_never_zero_after_advances_witness :
    (HandPosition.mk 11 59 59).Valid ∧
      ((1 ≤ (iterateAdvances [false, false, true] ⟨11, 59, 59⟩).hour ∧
          (iterateAdvances [false, false, true] ⟨11, 59, 59⟩).hour ≤ 12)
        ∧ Clock.update_clock_position false ⟨11, 59, 59⟩ = ⟨0, 0, 0⟩) :=
  ⟨by decide, hour_never_zero_after_advances ⟨11, 59, 59⟩ (by decide) [false, false, true]⟩

/-- Claim C4 (code bug in functions/clock.py): for the piclock.py
implementation one forward advance followed by one reverse advance
restores every valid position exactly; the functions/clock.py variant
violates it: from 12:59:59 the round trip returns 0:59:59. -/
theorem advance_round_trip :
    (∀ p : HandPosition, p.Valid →
        ClockController.update_clock_position true
          (ClockController.update_clock_position false p) = p)
    ∧ Clock.update_clock_position true
        (Clock.update_clock_position false ⟨12, 59, 59⟩) = ⟨0, 59, 59⟩
    ∧ Clock.update_clock_position true
        (Clock.update_clock_position false ⟨12, 59, 59⟩) ≠ ⟨12, 59, 59⟩
    ∧ (HandPosition.mk 12 59 59).Valid := by
  refine ⟨?_, by decide, by decide, by decide⟩
  intro p hp
  obtain ⟨h, m, s⟩ := p
  dsimp only [HandPosition.Valid] at hp
  obtain ⟨h1, h2, h3, h4, h5, h6⟩ := hp
  rw [update_false_mk]
  by_cases hs : (s + 1) % 60 = 0
  · by_cases hm : (m + 1) % 60 = 0
    · rw [if_pos hs, if_pos hm]
      by_cases hh : (h + 1) % 12 = 0
      · rw [if_pos hh, update_true_mk]
        split_ifs <;> simp only [HandPosition.mk.injEq, true_and, and_true] <;> omega
      · rw [if_neg hh, update_true_mk]
        split_ifs <;> simp only [HandPosition.mk.injEq, true_and, and_true] <;> omega
    · rw [if_pos hs, if_neg hm, update_true_mk]
      split_ifs <;> simp only [HandPosition.mk.injEq, true_and, and_true] <;> omega
  · rw [if_neg hs, update_true_mk]
    split_ifs <;> simp only [HandPosition.mk.injEq, true_and, and_true] <;> omega

/-- Claim C2: with the hour / minute / second thresholds combined as
"any threshold exceeded triggers correction"
(`should_use_fast_forward_or_reverse`), the decision of
`synchronize_clock` is Hold exactly when no threshold is exceeded — and a
Hold still performs exactly one forward advance of the position at
normal speed (`current_speed = 1`) — FastForward when a threshold is
exceeded and the offset is positive, Reverse when a threshold is
exceeded and the offset is negative; at the boundary, an offset exactly
equal to the combined tolerance `hh*3600 + mm*60 + ss` is Hold and one
more second triggers FastForward (Reverse when negative). -/
theorem sync_threshold_policy (th : SyncThresholds)
    (hhh : 0 ≤ th.diff_threshold_hh)
    (hm1 : 0 ≤ th.diff_threshold_mm) (hm2 : th.diff_threshold_mm ≤ 59)
    (hs1 : 0 ≤ th.diff_threshold_ss) (hs2 : th.diff_threshold_ss ≤ 59)
    (diff : Int) (cfg : PulseConfig) (o1 o2 : PulseOutcome)
    (rh rm rs : Int) (s : ClockState) :
    (ClockController.sync_decision th diff = SyncMode.Hold ↔
        ClockController.should_use_fast_forward_or_reverse th diff = false)
    ∧ (ClockController.should_use_fast_forward_or_reverse th diff = true → 0 < diff →
        ClockController.sync_decision th diff = SyncMode.FastForward)
    ∧ (ClockController.should_use_fast_forward_or_reverse th diff = true → diff < 0 →
        ClockController.sync_decision th diff = SyncMode.Reverse)
    ∧ (ClockController.synchronize_clock cfg th o1 o2 rh rm rs s).2 =
        ClockController.sync_decision th
          (ClockController.calculate_time_difference s.pos rh rm rs)
    ∧ ((ClockController.synchronize_clock cfg th o1 o2 rh rm rs s).2 = SyncMode.Hold →
        (ClockController.synchronize_clock cfg th o1 o2 rh rm rs s).1.pos =
            ClockController.update_clock_position false s.pos
          ∧ (ClockController.synchronize_clock cfg th o1 o2 rh rm rs s).1.current_speed = 1
          ∧ (ClockController.synchronize_clock cfg th o1 o2 rh rm rs s).1.reverse = false)
    ∧ ClockController.sync_decision th
        (th.diff_threshold_hh * 3600 + th.diff_threshold_mm * 60 + th.diff_threshold_ss) =
          SyncMode.Hold
    ∧ ClockController.sync_decision th
        (th.diff_threshold_hh * 3600 + th.diff_threshold_mm * 60 + th.diff_threshold_ss + 1) =
          SyncMode.FastForward
    ∧ ClockController.sync_decision th
        (-(th.diff_threshold_hh * 3600 + th.diff_threshold_mm * 60 + th.diff_threshold_ss + 1)) =
          SyncMode.Reverse := by
  have habsT : |th.diff_threshold_hh * 3600 + th.diff_threshold_mm * 60 + th.diff_threshold_ss| =
      th.diff_threshold_hh * 3600 + th.diff_threshold_mm * 60 + th.diff_threshold_ss :=
    abs_of_nonneg (by omega)
  have habsT1 : |th.diff_threshold_hh * 3600 + th.diff_threshold_mm * 60 + th.diff_threshold_ss + 1| =
      th.diff_threshold_hh * 3600 + th.diff_threshold_mm * 60 + th.diff_threshold_ss + 1 :=
    abs_of_nonneg (by omega)
  have habsN : |(-(th.diff_threshold_hh * 3600 + th.diff_threshold_mm * 60 + th.diff_threshold_ss + 1))| =
      th.diff_threshold_hh * 3600 + th.diff_threshold_mm * 60 + th.diff_threshold_ss + 1 := by
    rw [abs_neg]; exact habsT1
  have hfalseT : ClockController.should_use_fast_forward_or_reverse th
      (th.diff_threshold_hh * 3600 + th.diff_threshold_mm * 60 + th.diff_threshold_ss) = false := by
    simp only [ClockController.should_use_fast_forward_or_reverse, Bool.or_eq_false_iff,
      decide_eq_false_iff_not, not_lt, habsT]
    omega
  have htrueT1 : ClockController.should_use_fast_forward_or_reverse th
      (th.diff_threshold_hh * 3600 + th.diff_threshold_mm * 60 + th.diff_threshold_ss + 1) = true := by
    simp only [ClockController.should_use_fast_forward_or_reverse, Bool.or_eq_true,
      decide_eq_true_eq, habsT1]
    omega
  have htrueN : ClockController.should_use_fast_forward_or_reverse th
      (-(th.diff_threshold_hh * 3600 + th.diff_threshold_mm * 60 + th.diff_threshold_ss + 1)) = true := by
    simp only [ClockController.should_use_fast_forward_or_reverse, Bool.or_eq_true,
      decide_eq_true_eq, habsN]
    omega
  refine ⟨?_, ?_, ?_, ?_, ?_, ?_, ?_, ?_⟩
  · unfold ClockController.sync_decision
    split_ifs with hb hd
    · simp [hb]
    · simp [hb]
    · simp [hb]
  · intro hb hd
    unfold ClockController.sync_decision
    rw [hb]
    simp [hd]
  · intro hb hd
    unfold ClockController.sync_decision
    rw [hb]
    have hnd : ¬(diff > 0) := by omega
    simp [hnd]
  · simp only [ClockController.synchronize_clock, ClockController.sync_decision]
    split_ifs <;> rfl
  · simp only [ClockController.synchronize_clock]
    split_ifs with hb hd
    · intro _
      exact ⟨rfl, rfl, rfl⟩
    · intro hcontra
      simp at hcontra
    · intro hcontra
      simp at hcontra
  · unfold ClockController.sync_decision
    rw [hfalseT, if_pos rfl]
  · unfold ClockController.sync_decision
    rw [htrueT1, if_neg (by simp), if_pos (show
      th.diff_threshold_hh * 3600 + th.diff_threshold_mm * 60 + th.diff_threshold_ss + 1 > 0 by
        omega)]
  · unfold ClockController.sync_decision
    rw [htrueN, if_neg (by simp), if_neg (show
      ¬(-(th.diff_threshold_hh * 3600 + th.diff_threshold_mm * 60 + th.diff_threshold_ss + 1) > 0) by
        omega)]

/-- Witness for C2 at the default thresholds (tolerance 6h0m30s = 21630 s)
with offset 21630, a concrete pulse configuration, RTC reading 3:00:45
and a concrete state. -/
theorem sync_threshold_policy_witness :
    (0 ≤ defaultThresholds.diff_threshold_hh
      ∧ 0 ≤ defaultThresholds.diff_threshold_mm ∧ defaultThresholds.diff_threshold_mm ≤ 59
      ∧ 0 ≤ defaultThresholds.diff_threshold_ss ∧ defaultThresholds.diff_threshold_ss ≤ 59)
    ∧ ClockController.sync_decision defaultThresholds
        (defaultThresholds.diff_threshold_hh * 3600 + defaultThresholds.diff_threshold_mm * 60 +
          defaultThresholds.diff_threshold_ss) = SyncMode.Hold := by
  refine ⟨⟨by decide, by decide, by decide, by decide, by decide⟩, ?_⟩
  exact (sync_threshold_policy defaultThresholds (by decide) (by decide) (by decide)
    (by decide) (by decide) 0 defaultPulseConfig PulseOutcome.ok PulseOutcome.ok 3 0 45
    ⟨⟨3, 0, 0⟩, 12, false, false, false, false, 1, true⟩).2.2.2.2.2.1

/-- Claim C6: whenever `paused` is true, repeated firings of the tick
timer never mutate the hand position: the cadence loop
(`timer_callback`) does not signal tick-due while paused (its iteration
is the identity on the state), the main loop of `run` performs no
synchronization tick while paused, under every finite interleaving of
the two loops the position is unchanged and the engine stays paused, and
`resume` is what sets `paused` back to false. -/
theorem paused_blocks_position_mutation (cfg : PulseConfig) (th : SyncThresholds)
    (s : ClockState) (hp : s.paused = true) (steps : List LoopStep) :
    ((runLoopSteps cfg th steps s).pos = s.pos ∧
        (runLoopSteps cfg th steps s).paused = true)
    ∧ ClockController.timer_callback_iter s = s
    ∧ (ClockController.resume s).paused = false :=
  ⟨runLoopSteps_paused cfg th steps s hp,
    by simp [ClockController.timer_callback_iter, hp], rfl⟩

/-- Witness for C6: a paused state driven through a cadence firing and
two main-loop iterations. -/
theorem paused_blocks_position_mutation_witness :
    (ClockState.mk ⟨3, 0, 0⟩ 12 false false true false 1 true).paused = true ∧
      (((runLoopSteps defaultPulseConfig defaultThresholds
            [LoopStep.timerFire, LoopStep.mainIter 3 0 45 PulseOutcome.ok PulseOutcome.ok,
              LoopStep.mainIter 11 59 59 PulseOutcome.hardwareFailure PulseOutcome.ok]
            (ClockState.mk ⟨3, 0, 0⟩ 12 false false true false 1 true)).pos =
          (ClockState.mk ⟨3, 0, 0⟩ 12 false false true false 1 true).pos ∧
        (runLoopSteps defaultPulseConfig defaultThresholds
            [LoopStep.timerFire, LoopStep.mainIter 3 0 45 PulseOutcome.ok PulseOutcome.ok,
              LoopStep.mainIter 11 59 59 PulseOutcome.hardwareFailure PulseOutcome.ok]
            (ClockState.mk ⟨3, 0, 0⟩ 12 false false true false 1 true)).paused = true)
      ∧ ClockController.timer_callback_iter
          (ClockState.mk ⟨3, 0, 0⟩ 12 false false true false 1 true) =
          ClockState.mk ⟨3, 0, 0⟩ 12 false false true false 1 true
      ∧ (ClockController.resume
          (ClockState.mk ⟨3, 0, 0⟩ 12 false false true false 1 true)).paused = false) :=
  ⟨rfl, paused_blocks_position_mutation defaultPulseConfig defaultThresholds
    (ClockState.mk ⟨3, 0, 0⟩ 12 false false true false 1 true) rfl
    [LoopStep.timerFire, LoopStep.mainIter 3 0 45 PulseOutcome.ok PulseOutcome.ok,
      LoopStep.mainIter 11 59 59 PulseOutcome.hardwareFailure PulseOutcome.ok]⟩

/-- Claim C7 (code bug): a malformed persisted record IS treated as
absent by piclock.py's validating reader, but piclock.py then has no
default position at all (`run_initial_position` stays `none`, i.e. the
position fields remain `None`, so the first hardware-backed
synchronization crashes formatting `None`), while app.py falls back to
the default 12:00:00 only for an ABSENT record and accepts or crashes on
malformed decodable records (minute/second 99 accepted; non-numeric
fields raise `ValueError` out of `main`). -/
theorem startup_malformed_record_code_bug :
    ClockController.read_time_from_fram ['9', '9', ':', '0', '0', ':', '0', '0'] = none
    ∧ ClockController.run_initial_position (some ['9', '9', ':', '0', '0', ':', '0', '0']) = none
    ∧ ClockController.run_initial_position none = none
    ∧ appMainInitialPosition none = some ⟨12, 0, 0⟩
    ∧ appMainInitialPosition (some ['9', '9', ':', '9', '9', ':', '9', '9']) = some ⟨3, 99, 99⟩
    ∧ ¬ (HandPosition.mk 3 99 99).Valid
    ∧ appMainInitialPosition (some ['a', 'a', ':', 'b', 'b', ':', 'c', 'c']) = none := by
  refine ⟨by decide, by decide, rfl, rfl, by decide, by decide, by decide⟩

/-- Claim C9: for every tick operation (forward, fast-forward, reverse)
and EVERY pulse outcome — including a hardware-unavailable state and a
GPIO call that signals failure, which `send_pwm_pulse` logs and treats
as a no-op — the tick still advances the logical hand position by
exactly one second (resp. one reverse-second): the new position is the
one-step advance, and on the 12-hour dial it is exactly one second after
(resp. before) the old one. -/
theorem tick_advances_despite_pulse_failure (cfg : PulseConfig)
    (o o1 o2 : PulseOutcome) (s : ClockState) (hv : s.pos.Valid) :
    ((ClockController.forward_tick cfg o s).1.pos =
        ClockController.update_clock_position false s.pos)
    ∧ ((ClockController.fast_forward_tick cfg o s).1.pos =
        ClockController.update_clock_position false s.pos)
    ∧ ((ClockController.reverse_tick cfg o1 o2 s).1.pos =
        ClockController.update_clock_position true s.pos)
    ∧ posToSeconds (ClockController.update_clock_position false s.pos) =
        (posToSeconds s.pos + 1) % 43200
    ∧ posToSeconds (ClockController.update_clock_position true s.pos) =
        (posToSeconds s.pos - 1) % 43200 := by
  refine ⟨rfl, rfl, ?_, ?_, ?_⟩
  · simp only [ClockController.reverse_tick, ClockController.send_pwm_pulse]
  · rcases hsp : s.pos with ⟨h, m, sec⟩
    rw [hsp] at hv
    dsimp only [HandPosition.Valid] at hv
    obtain ⟨h1, h2, h3, h4, h5, h6⟩ := hv
    rw [update_false_mk]
    split_ifs <;> simp only [posToSeconds] <;> omega
  · rcases hsp : s.pos with ⟨h, m, sec⟩
    rw [hsp] at hv
    dsimp only [HandPosition.Valid] at hv
    obtain ⟨h1, h2, h3, h4, h5, h6⟩ := hv
    rw [update_true_mk]
    split_ifs <;> simp only [posToSeconds] <;> omega

/-- Witness for C9: hardware-failure outcomes on a hardware-unavailable
state at position 12:59:59. -/
theorem tick_advances_despite_pulse_failure_witness :
    (ClockState.mk ⟨12, 59, 59⟩ 13 false false false false 1 false).pos.Valid ∧
      (((ClockController.forward_tick defaultPulseConfig PulseOutcome.hardwareFailure
            (ClockState.mk ⟨12, 59, 59⟩ 13 false false false false 1 false)).1.pos =
          ClockController.update_clock_position false
            (ClockState.mk ⟨12, 59, 59⟩ 13 false false false false 1 false).pos)
        ∧ ((ClockController.fast_forward_tick defaultPulseConfig PulseOutcome.hardwareFailure
            (ClockState.mk ⟨12, 59, 59⟩ 13 false false false false 1 false)).1.pos =
          ClockController.update_clock_position false
            (ClockState.mk ⟨12, 59, 59⟩ 13 false false false false 1 false).pos)
        ∧ ((ClockController.reverse_tick defaultPulseConfig PulseOutcome.hardwareFailure
            PulseOutcome.hardwareFailure
            (ClockState.mk ⟨12, 59, 59⟩ 13 false false false false 1 false)).1.pos =
          ClockController.update_clock_position true
            (ClockState.mk ⟨12, 59, 59⟩ 13 false false false false 1 false).pos)
        ∧ posToSeconds (ClockController.update_clock_position false
            (ClockState.mk ⟨12, 59, 59⟩ 13 false false false false 1 false).pos) =
          (posToSeconds (ClockState.mk ⟨12, 59, 59⟩ 13 false false false false 1 false).pos + 1) % 43200
        ∧ posToSeconds (ClockController.update_clock_position true
            (ClockState.mk ⟨12, 59, 59⟩ 13 false false false false 1 false).pos) =
          (posToSeconds (ClockState.mk ⟨12, 59, 59⟩ 13 false false false false 1 false).pos - 1) % 43200) :=
  ⟨by decide, tick_advances_despite_pulse_failure defaultPulseConfig
    PulseOutcome.hardwareFailure PulseOutcome.hardwareFailure PulseOutcome.hardwareFailure
    (ClockState.mk ⟨12, 59, 59⟩ 13 false false false false 1 false) (by decide)⟩

/-- Claim C10: `reverse_tick` reads the second hand before any position
mutation and selects the region-A pulse profile exactly when
`rev_ticka_lo ≤ second < rev_ticka_hi` (by default the band 35-55),
otherwise region B; it emits the short release pulse on the current
output, waits the fixed inter-pulse delay, emits the longer engage pulse
on the other output, and advances the position by one reverse-second
(also setting the reverse flag and the reverse speed). -/
theorem reverse_tick_region_profile (cfg : PulseConfig) (o1 o2 : PulseOutcome)
    (s : ClockState) :
    (cfg.rev_ticka_lo ≤ s.pos.second ∧ s.pos.second < cfg.rev_ticka_hi →
        (ClockController.reverse_tick cfg o1 o2 s).2 =
          [PulseAction.pulse s.current_tick_pin cfg.rev_ticka_t1_ms cfg.rev_ticka_on_us,
            PulseAction.sleep cfg.rev_ticka_t2_ms,
            PulseAction.pulse (togglePinRev cfg s.current_tick_pin) cfg.rev_ticka_t3_ms
              cfg.rev_ticka_on_us])
    ∧ (¬(cfg.rev_ticka_lo ≤ s.pos.second ∧ s.pos.second < cfg.rev_ticka_hi) →
        (ClockController.reverse_tick cfg o1 o2 s).2 =
          [PulseAction.pulse s.current_tick_pin cfg.rev_tickb_t1_ms cfg.rev_tickb_on_us,
            PulseAction.sleep cfg.rev_tickb_t2_ms,
            PulseAction.pulse (togglePinRev cfg s.current_tick_pin) cfg.rev_tickb_t3_ms
              cfg.rev_tickb_on_us])
    ∧ (ClockController.reverse_tick cfg o1 o2 s).1.pos =
        ClockController.update_clock_position true s.pos
    ∧ (ClockController.reverse_tick cfg o1 o2 s).1.reverse = true
    ∧ (ClockController.reverse_tick cfg o1 o2 s).1.current_speed = cfg.rev_speedup
    ∧ defaultPulseConfig.rev_ticka_lo = 35 ∧ defaultPulseConfig.rev_ticka_hi = 55 := by
  refine ⟨?_, ?_, ?_, rfl, rfl, rfl, rfl⟩
  · intro hA
    simp only [ClockController.reverse_tick, ClockController.send_pwm_pulse]
    split_ifs
    rfl
  · intro hB
    simp only [ClockController.reverse_tick, ClockController.send_pwm_pulse]
    split_ifs
    rfl
  · simp only [ClockController.reverse_tick, ClockController.send_pwm_pulse]

/-- Witness for C10: a state with second hand at 40 (inside the default
region-A band 35-55). -/
theorem reverse_tick_region_profile_witness :
    (defaultPulseConfig.rev_ticka_lo ≤
        (ClockState.mk ⟨3, 0, 40⟩ 12 false false false false 1 true).pos.second ∧
      (ClockState.mk ⟨3, 0, 40⟩ 12 false false false false 1 true).pos.second <
        defaultPulseConfig.rev_ticka_hi) ∧
      (ClockController.reverse_tick defaultPulseConfig PulseOutcome.ok PulseOutcome.ok
          (ClockState.mk ⟨3, 0, 40⟩ 12 false false false false 1 true)).2 =
        [PulseAction.pulse
            (ClockState.mk ⟨3, 0, 40⟩ 12 false false false false 1 true).current_tick_pin
            defaultPulseConfig.rev_ticka_t1_ms defaultPulseConfig.rev_ticka_on_us,
          PulseAction.sleep defaultPulseConfig.rev_ticka_t2_ms,
          PulseAction.pulse
            (togglePinRev defaultPulseConfig
              (ClockState.mk ⟨3, 0, 40⟩ 12 false false false false 1 true).current_tick_pin)
            defaultPulseConfig.rev_ticka_t3_ms defaultPulseConfig.rev_ticka_on_us] :=
  ⟨by decide, (reverse_tick_region_profile defaultPulseConfig PulseOutcome.ok PulseOutcome.ok
    (ClockState.mk ⟨3, 0, 40⟩ 12 false false false false 1 true)).1 (by decide)⟩

/-- Witness for C4 at 12:59:59 (and implicitly its validity). -/
theorem advance_round_trip_witness :
    (HandPosition.mk 12 59 59).Valid ∧
      ClockController.update_clock_position true
        (ClockController.update_clock_position false ⟨12, 59, 59⟩) = ⟨12, 59, 59⟩ :=
  ⟨by decide, advance_round_trip.1 ⟨12, 59, 59⟩ (by decide)⟩

/-- Properties of the ASCII digit character written by zero-padded
formatting. -/
theorem digitChar_spec (d : Int) (h0 : 0 ≤ d) (h9 : d ≤ 9) :
    isDigitChar (digitChar d) = true ∧ digitVal (digitChar d) = d ∧
      digitChar d ≠ ':' ∧ isPySpace (digitChar d) = false ∧
      digitChar d ≠ '+' ∧ digitChar d ≠ '-' := by
  interval_cases d <;> decide

/-- Splitting an 8-byte record whose non-separator bytes are not colons
yields exactly the three 2-byte fields. -/
theorem splitOnColon_record (a b c d e f : Char)
    (ha : a ≠ ':') (hb : b ≠ ':') (hc : c ≠ ':')
    (hd : d ≠ ':') (he : e ≠ ':') (hf : f ≠ ':') :
    splitOnColon [a, b, ':', c, d, ':', e, f] = [[a, b], [c, d], [e, f]] := by
  simp [splitOnColon, ha, hb, hc, hd, he, hf]

/-- Python's `int()` on a zero-padded two-digit field recovers the
value. -/
theorem pyInt_two_digits (n : Int) (h0 : 0 ≤ n) (h99 : n ≤ 99) :
    pyInt [digitChar (n / 10), digitChar (n % 10)] = some n := by
  have s1 := digitChar_spec (n / 10) (by omega) (by omega)
  have s2 := digitChar_spec (n % 10) (by omega) (by omega)
  simp only [pyInt, pyDigitsVal, List.dropWhile, s1.2.2.2.1, s2.2.2.2.1,
    List.reverse_cons, List.reverse_nil, List.nil_append, List.cons_append,
    List.singleton_append]
  simp only [s1.2.2.2.2.1, s1.2.2.2.2.2, if_false]
  simp [s1.1, s2.1, s1.2.1, s2.2.1]
  omega

/-- `pySplitParse` recovers the three values of a written record. -/
theorem pySplitParse_write (h m s : Int)
    (hh0 : 0 ≤ h) (hh99 : h ≤ 99) (hm0 : 0 ≤ m) (hm99 : m ≤ 99)
    (hs0 : 0 ≤ s) (hs99 : s ≤ 99) :
    pySplitParse (ClockController.write_time_to_fram h m s) = some (h, m, s) := by
  have s1 := digitChar_spec (h / 10) (by omega) (by omega)
  have s2 := digitChar_spec (h % 10) (by omega) (by omega)
  have s3 := digitChar_spec (m / 10) (by omega) (by omega)
  have s4 := digitChar_spec (m % 10) (by omega) (by omega)
  have s5 := digitChar_spec (s / 10) (by omega) (by omega)
  have s6 := digitChar_spec (s % 10) (by omega) (by omega)
  have e := splitOnColon_record _ _ _ _ _ _
    s1.2.2.1 s2.2.2.1 s3.2.2.1 s4.2.2.1 s5.2.2.1 s6.2.2.1
  simp only [ClockController.write_time_to_fram] at e ⊢
  simp only [pySplitParse, e, pyInt_two_digits h hh0 hh99,
    pyInt_two_digits m hm0 hm99, pyInt_two_digits s hs0 hs99]

/-- Claim C8 (amended): persisting writes exactly the 8-byte zero-padded
record `HH:MM:SS` with colons at offsets 2 and 5, it satisfies the
spec's exact shape, and loading it back recovers the position; every
successfully loaded record has length 8, colons at offsets 2 and 5, and
in-range field values (so wrong length, wrong separators, unparseable
fields or out-of-range values are all rejected).  The unamended
rejection clause fails: see the counterexample theorem. -/
theorem fram_record_round_trip (h m s : Int)
    (hh1 : 1 ≤ h) (hh2 : h ≤ 12) (hm1 : 0 ≤ m) (hm2 : m ≤ 59)
    (hs1 : 0 ≤ s) (hs2 : s ≤ 59) :
    ClockController.read_time_from_fram (ClockController.write_time_to_fram h m s) =
        some (h, m, s)
    ∧ (ClockController.write_time_to_fram h m s).length = 8
    ∧ (ClockController.write_time_to_fram h m s)[2]? = some ':'
    ∧ (ClockController.write_time_to_fram h m s)[5]? = some ':'
    ∧ specExactShape (ClockController.write_time_to_fram h m s) = true
    ∧ (∀ (cs : List Char) (h' m' s' : Int),
        ClockController.read_time_from_fram cs = some (h', m', s') →
          cs.length = 8 ∧ cs[2]? = some ':' ∧ cs[5]? = some ':' ∧
            1 ≤ h' ∧ h' ≤ 12 ∧ 0 ≤ m' ∧ m' ≤ 59 ∧ 0 ≤ s' ∧ s' ≤ 59) := by
  refine ⟨?_, rfl, rfl, rfl, ?_, ?_⟩
  · unfold ClockController.read_time_from_fram
    rw [if_pos ⟨rfl, rfl, rfl⟩,
      pySplitParse_write h m s (by omega) (by omega) (by omega) (by omega) (by omega) (by omega)]
    dsimp only
    rw [if_pos ⟨hh1, hh2, hm1, hm2, hs1, hs2⟩]
  · have s1 := digitChar_spec (h / 10) (by omega) (by omega)
    have s2 := digitChar_spec (h % 10) (by omega) (by omega)
    have s3 := digitChar_spec (m / 10) (by omega) (by omega)
    have s4 := digitChar_spec (m % 10) (by omega) (by omega)
    have s5 := digitChar_spec (s / 10) (by omega) (by omega)
    have s6 := digitChar_spec (s % 10) (by omega) (by omega)
    simp [ClockController.write_time_to_fram, specExactShape,
      s1.1, s2.1, s3.1, s4.1, s5.1, s6.1,
      s1.2.1, s2.2.1, s3.2.1, s4.2.1, s5.2.1, s6.2.1]
    omega
  · intro cs h' m' s' hread
    unfold ClockController.read_time_from_fram at hread
    by_cases hc : (cs.length = 8 ∧ cs[2]? = some ':' ∧ cs[5]? = some ':')
    · rw [if_pos hc] at hread
      cases hps : pySplitParse cs with
      | none => rw [hps] at hread; simp at hread
      | some t =>
          obtain ⟨a, b2, c2⟩ := t
          rw [hps] at hread
          dsimp only at hread
          by_cases hr : (1 ≤ a ∧ a ≤ 12 ∧ 0 ≤ b2 ∧ b2 ≤ 59 ∧ 0 ≤ c2 ∧ c2 ≤ 59)
          · rw [if_pos hr] at hread
            simp only [Option.some.injEq, Prod.mk.injEq] at hread
            obtain ⟨e1, e2, e3⟩ := hread
            subst e1; subst e2; subst e3
            exact ⟨hc.1, hc.2.1, hc.2.2, hr.1, hr.2.1, hr.2.2.1, hr.2.2.2.1,
              hr.2.2.2.2.1, hr.2.2.2.2.2⟩
          · rw [if_neg hr] at hread; simp at hread
    · rw [if_neg hc] at hread; simp at hread

/-- Witness for C8 at position 7:05:09. -/
theorem fram_record_round_trip_witness :
    (1 ≤ (7 : Int) ∧ (7 : Int) ≤ 12 ∧ 0 ≤ (5 : Int) ∧ (5 : Int) ≤ 59 ∧
        0 ≤ (9 : Int) ∧ (9 : Int) ≤ 59) ∧
      ClockController.read_time_from_fram (ClockController.write_time_to_fram 7 5 9) =
        some (7, 5, 9) :=
  ⟨by decide, (fram_record_round_trip 7 5 9 (by decide) (by decide) (by decide)
    (by decide) (by decide) (by decide)).1⟩

/-- Counterexample for C8 as stated: the record `+1:02:03` fails the
spec's exact zero-padded-digit shape, yet piclock.py's
`read_time_from_fram` accepts it as 01:02:03 because Python's `int()`
tolerates a leading sign (and likewise leading/trailing whitespace) in
each field. -/
theorem fram_shape_check_counterexample :
    ClockController.read_time_from_fram ['+', '1', ':', '0', '2', ':', '0', '3'] =
        some (1, 2, 3)
    ∧ specExactShape ['+', '1', ':', '0', '2', ':', '0', '3'] = false := by
  refine ⟨by decide, by decide⟩

end PiClock
